import Mathlib

/-!
Shallow embedding of `src/main.py`: a single-page Streamlit app that uploads a
handwritten exam PDF to a fixed webhook, guarded so that each selected file is
sent at most once per submission.  The Python script is re-run top-to-bottom on
every interaction; `st.rerun()` aborts the current run.  We model one run of
the script as a pure function from the session state and the inputs of the run (the
file currently selected in the uploader, which buttons fired, and the outcome
of the outbound HTTP request if one is issued) to the new session state plus a
trace of observable events (widgets rendered, messages shown, outbound calls,
writes to the guard flag) in program order.
-/

namespace HandwrittenInk

/-- Model of a Streamlit `UploadedFile`: its `name`, its `size` in bytes, and
the bytes returned by `file_obj.read()`. -/
structure FileObj where
  name : String
  size : Nat
  content : List Nat
deriving DecidableEq

/-- Constant from main.py line 15: `MAX_FILE_SIZE_MB = 10`. -/
def MAX_FILE_SIZE_MB : Nat := 10

/-- Main.py line 13: `WEBHOOK_URL = st.secrets.get("WEBHOOK_URL", <default>)`.
The secrets store is modelled as a partial map from key to value. -/
def WEBHOOK_URL (secrets : String → Option String) : String :=
  (secrets "WEBHOOK_URL").getD "https://n8n-wa-5axz.onrender.com/webhook/process-notes"

/-- Exception classes distinguished by the three `except` clauses of
`process_document` (main.py lines 43-48): `requests.exceptions.Timeout`,
`requests.exceptions.ConnectionError`, and any other `Exception` carrying its
string representation `str(e)`. -/
inductive RequestException where
  | timeout
  | connectionError
  | other (msg : String)
deriving DecidableEq

/-- Outcome of the outbound `requests.post` call: either a response with a
status code and body text, or a raised exception. -/
inductive HttpOutcome where
  | response (status_code : Nat) (text : String)
  | raised (e : RequestException)
deriving DecidableEq

/-- Return value of `process_document`: the dict `{"success": ..., "error": ...}`
where the `"error"` key may be absent (`none`). -/
structure ProcResult where
  success : Bool
  error : Option String
deriving DecidableEq

/-- The outbound HTTP request assembled by `process_document` (main.py lines
28-32): `requests.post(WEBHOOK_URL, files={"file": (name, bytes,
"application/pdf")}, timeout=240)`. -/
structure PostRequest where
  method : String
  url : String
  fieldName : String
  fileName : String
  fileBytes : List Nat
  mime : String
  timeoutSeconds : Nat
deriving DecidableEq

/-- Request construction inside `process_document` (main.py lines 28-32): the
file bytes are sent as multipart form data under field name `file` with MIME
type `application/pdf`, by POST to `WEBHOOK_URL`, with `timeout=240`. -/
def process_document_request (secrets : String → Option String)
    (file_obj : FileObj) : PostRequest :=
  { method := "POST"
    url := WEBHOOK_URL secrets
    fieldName := "file"
    fileName := file_obj.name
    fileBytes := file_obj.content
    mime := "application/pdf"
    timeoutSeconds := 240 }

/-- Result construction of `process_document` (main.py lines 34-48): status
code 200 yields `{"success": True}`; any other status yields a failure with
the message `f"Server returned {status_code}: {text}"`; each of the three
except clauses yields a failure with its message. -/
def handle_response : HttpOutcome → ProcResult
  | HttpOutcome.response status_code text =>
      if status_code = 200 then { success := true, error := none }
      else { success := false,
             error := some ("Server returned " ++ toString status_code ++ ": " ++ text) }
  | HttpOutcome.raised RequestException.timeout =>
      { success := false,
        error := some "The request timed out. The file might be processing in the background." }
  | HttpOutcome.raised RequestException.connectionError =>
      { success := false, error := some "Connection error. Check your internet/server." }
  | HttpOutcome.raised (RequestException.other e) =>
      { success := false, error := some e }

/-- Main.py lines 26-48, `process_document(file_obj)`: build the request from
the file object, hand it to the transport (`requests.post`, modelled as a
function from the request to its outcome), and translate the outcome to a
result dict.  It is a total function: every outcome, raised exceptions
included, is turned into a returned dict. -/
def process_document (secrets : String → Option String)
    (transport : PostRequest → HttpOutcome) (file_obj : FileObj) : ProcResult :=
  handle_response (transport (process_document_request secrets file_obj))

/-- Session state (main.py lines 17-23 plus the `uploaded_file` key stored on
line 107): three boolean flags and the optionally-present uploaded file. -/
structure SessionState where
  processing : Bool
  upload_success : Bool
  file_processed : Bool
  uploaded_file : Option FileObj
deriving DecidableEq

/-- State produced by the initialization block (main.py lines 17-23): all
three flags `False`, no `uploaded_file` key. -/
def initState : SessionState :=
  { processing := false
    upload_success := false
    file_processed := false
    uploaded_file := none }

/-- Main.py lines 50-57, `reset_app()`: set the three flags to `False` and
delete the `uploaded_file` key (the final `st.rerun()` only aborts the
current run). -/
def reset_app (s : SessionState) : SessionState :=
  { s with processing := false
           upload_success := false
           file_processed := false
           uploaded_file := none }

/-- Observable events emitted during one run of the script, in program
order. -/
inductive Event where
  | uploaderShown
  | sizeErrorShown (f : FileObj)
  | buttonShown (disabled : Bool)
  | infoShown
  | callDoc (f : FileObj)
  | setFileProcessed (b : Bool)
  | errorShown (msg : String)
  | successShown
  | resetApp
deriving DecidableEq

/-- Inputs to one run of the script: the file currently selected in the
uploader widget, whether each button fired on this run, the secrets store and
the transport used if an outbound call is made. -/
structure RunInput where
  selectedFile : Option FileObj
  processClicked : Bool
  resetClicked : Bool
  secrets : String → Option String
  transport : PostRequest → HttpOutcome

/-- Section 1 of the script (main.py lines 86-113), the upload form.  Returns
the new state, the events emitted, and whether `st.rerun()` aborted the run.
Rendered only when neither `upload_success` nor `processing` is set.  An
oversized file (`size / (1024*1024) > MAX_FILE_SIZE_MB`; division by the
power of two is exact, so this is `size > MAX_FILE_SIZE_MB * 1024 * 1024`)
draws an error message.  Otherwise the submit button is drawn, disabled while
`processing` or `file_processed` is set; a click stores the file, sets
`processing`, clears `file_processed` and reruns. -/
def section1 (s : SessionState) (inp : RunInput) : SessionState × List Event × Bool :=
  if !s.upload_success && !s.processing then
    match inp.selectedFile with
    | none => (s, [Event.uploaderShown], false)
    | some uploaded_file =>
      if MAX_FILE_SIZE_MB * 1024 * 1024 < uploaded_file.size then
        (s, [Event.uploaderShown, Event.sizeErrorShown uploaded_file], false)
      else
        let button_disabled := s.processing || s.file_processed
        if inp.processClicked && !button_disabled then
          ({ s with processing := true
                    uploaded_file := some uploaded_file
                    file_processed := false },
           [Event.uploaderShown, Event.buttonShown button_disabled,
            Event.setFileProcessed false], true)
        else
          (s, [Event.uploaderShown, Event.buttonShown button_disabled]
              ++ (if button_disabled then [Event.infoShown] else []), false)
  else (s, [], false)

/-- Section 2 of the script (main.py lines 118-142), the guarded processing
step.  Runs when `processing` is set, the `uploaded_file` key is present and
`file_processed` is clear.  It calls `process_document`, sets the
`file_processed` guard immediately after the call returns, then on success
sets `upload_success`, clears `processing` and reruns, while on failure it
shows the error message, clears `processing` and clears `file_processed`
again so the same file can be retried. -/
def section2 (s : SessionState) (inp : RunInput) : SessionState × List Event × Bool :=
  match s.uploaded_file with
  | none => (s, [], false)
  | some f =>
    if s.processing && !s.file_processed then
      let result := process_document inp.secrets inp.transport f
      if result.success then
        ({ s with file_processed := true
                  upload_success := true
                  processing := false },
         [Event.callDoc f, Event.setFileProcessed true], true)
      else
        ({ s with file_processed := false
                  processing := false },
         [Event.callDoc f, Event.setFileProcessed true,
          Event.errorShown (result.error.getD ""),
          Event.setFileProcessed false], false)
    else (s, [], false)

/-- Section 3 of the script (main.py lines 147-164), the success screen.
Rendered only when `upload_success` is set; its button invokes `reset_app`,
which reruns. -/
def section3 (s : SessionState) (inp : RunInput) : SessionState × List Event × Bool :=
  if s.upload_success then
    if inp.resetClicked then
      (reset_app s, [Event.successShown, Event.resetApp], true)
    else (s, [Event.successShown], false)
  else (s, [], false)

/-- One full run of the script: section 1, then section 2, then section 3,
each skipped when an earlier section called `st.rerun()`. -/
def runScript (s : SessionState) (inp : RunInput) : SessionState × List Event :=
  match section1 s inp with
  | (s1, t1, true) => (s1, t1)
  | (s1, t1, false) =>
    match section2 s1 inp with
    | (s2, t2, true) => (s2, t1 ++ t2)
    | (s2, t2, false) =>
      match section3 s2 inp with
      | (s3, t3, _) => (s3, t1 ++ t2 ++ t3)

/-- Iterated runs of the script from a state, concatenating the traces. -/
def runTrace (s : SessionState) : List RunInput → SessionState × List Event
  | [] => (s, [])
  | inp :: rest =>
    let r := runScript s inp
    let r2 := runTrace r.1 rest
    (r2.1, r.2 ++ r2.2)

/-- Predicate picking out the outbound-call events of a trace. -/
def isCall : Event → Bool
  | Event.callDoc _ => true
  | _ => false

/-- Files passed to `process_document` during a trace, in order. -/
def calledFiles (tr : List Event) : List FileObj :=
  tr.filterMap fun e =>
    match e with
    | Event.callDoc f => some f
    | _ => none

/-- Number of outbound calls in a trace. -/
def callCount (tr : List Event) : Nat := (calledFiles tr).length

/-- Reachability invariant of the session state: whenever `upload_success` is
set, `processing` is clear and `file_processed` is set; and any stored
`uploaded_file` has passed the size validation. -/
def invB (s : SessionState) : Bool :=
  (!s.upload_success || (!s.processing && s.file_processed)) &&
  (match s.uploaded_file with
   | none => true
   | some f => decide (f.size ≤ MAX_FILE_SIZE_MB * 1024 * 1024))

/-- Auxiliary scan: within a trace whose previous event was `prev`, every call
event is immediately preceded by a write of `true` to the guard flag. -/
def guardBeforeCallsFrom (prev : Event) : List Event → Bool
  | [] => true
  | e :: rest =>
    (!(isCall e) || decide (prev = Event.setFileProcessed true)) &&
    guardBeforeCallsFrom e rest

/-- Property that every call event in a trace is immediately preceded by a
write of `true` to the guard flag (a call as the first event has no
predecessor and violates it). -/
def guardBeforeCalls : List Event → Bool
  | [] => true
  | e :: rest => !(isCall e) && guardBeforeCallsFrom e rest

/-- Property that every call event in a trace is immediately followed by a
write of `true` to the guard flag. -/
def guardAfterCalls : List Event → Bool
  | [] => true
  | e :: rest =>
    (!(isCall e) || (match rest with
                     | e2 :: _ => decide (e2 = Event.setFileProcessed true)
                     | [] => false)) &&
    guardAfterCalls rest

open HandwrittenInk

lemma reset_app_eq (s : SessionState) : reset_app s = initState := by
  cases s
  rfl

lemma calledFiles_append (a b : List Event) :
    calledFiles (a ++ b) = calledFiles a ++ calledFiles b :=
  List.filterMap_append a b _

lemma server_msg_ne (status_code : Nat) (text : String) :
    ("Server returned " ++ toString status_code ++ ": " ++ text) ≠ "" := by
  intro h
  have h1 : ("Server returned " ++ toString status_code ++ ": " ++ text).length = 0 := by
    rw [h]
    rfl
  rw [String.length_append, String.length_append, String.length_append] at h1
  have h2 : ("Server returned ").length = 16 := rfl
  omega

lemma section1_skip_success (s : SessionState) (inp : RunInput)
    (h : s.upload_success = true) : section1 s inp = (s, [], false) := by
  simp [section1, h]

lemma section1_skip_processing (s : SessionState) (inp : RunInput)
    (h : s.processing = true) : section1 s inp = (s, [], false) := by
  simp [section1, h]

lemma section2_skip_noproc (s : SessionState) (inp : RunInput)
    (h : s.processing = false) : section2 s inp = (s, [], false) := by
  cases hu : s.uploaded_file <;> simp [section2, hu, h]

lemma section2_skip_fp (s : SessionState) (inp : RunInput)
    (h : s.file_processed = true) : section2 s inp = (s, [], false) := by
  cases hu : s.uploaded_file <;> simp [section2, hu, h]

lemma section3_skip (s : SessionState) (inp : RunInput)
    (h : s.upload_success = false) : section3 s inp = (s, [], false) := by
  simp [section3, h]

lemma section3_noreset (s : SessionState) (inp : RunInput)
    (hs : s.upload_success = true) (hr : inp.resetClicked = false) :
    section3 s inp = (s, [Event.successShown], false) := by
  simp [section3, hs, hr]

lemma section3_reset (s : SessionState) (inp : RunInput)
    (hs : s.upload_success = true) (hr : inp.resetClicked = true) :
    section3 s inp = (reset_app s, [Event.successShown, Event.resetApp], true) := by
  simp [section3, hs, hr]

lemma run_post_success (s : SessionState) (inp : RunInput)
    (hs : s.upload_success = true) (hp : s.processing = false)
    (hr : inp.resetClicked = false) :
    runScript s inp = (s, [Event.successShown]) := by
  simp [runScript, section1_skip_success s inp hs, section2_skip_noproc s inp hp,
    section3_noreset s inp hs hr]

lemma run_post_success_reset (s : SessionState) (inp : RunInput)
    (hs : s.upload_success = true) (hp : s.processing = false)
    (hr : inp.resetClicked = true) :
    runScript s inp = (initState, [Event.successShown, Event.resetApp]) := by
  simp [runScript, section1_skip_success s inp hs, section2_skip_noproc s inp hp,
    section3_reset s inp hs hr, reset_app_eq]

lemma run_processing_success (s : SessionState) (inp : RunInput) (f : FileObj)
    (hp : s.processing = true) (hf : s.uploaded_file = some f)
    (hfp : s.file_processed = false)
    (hres : (process_document inp.secrets inp.transport f).success = true) :
    runScript s inp =
      ({ processing := false, upload_success := true, file_processed := true,
         uploaded_file := some f },
       [Event.callDoc f, Event.setFileProcessed true]) := by
  obtain ⟨p, us, fp, uf⟩ := s
  simp only [SessionState.mk.injEq] at *
  subst hp hfp hf
  simp [runScript, section1, section2, section3, hres]

lemma run_processing_failure (s : SessionState) (inp : RunInput) (f : FileObj)
    (hp : s.processing = true) (hf : s.uploaded_file = some f)
    (hfp : s.file_processed = false) (hsucc : s.upload_success = false)
    (hres : (process_document inp.secrets inp.transport f).success = false) :
    runScript s inp =
      ({ processing := false, upload_success := false, file_processed := false,
         uploaded_file := some f },
       [Event.callDoc f, Event.setFileProcessed true,
        Event.errorShown ((process_document inp.secrets inp.transport f).error.getD ""),
        Event.setFileProcessed false]) := by
  obtain ⟨p, us, fp, uf⟩ := s
  simp only [] at *
  subst hp hfp hf hsucc
  simp [runScript, section1, section2, section3, hres]

lemma invB_init : invB initState = true := by decide

lemma invB_run (s : SessionState) (inp : RunInput) (h : invB s = true) :
    invB (runScript s inp).1 = true := by
  obtain ⟨p, us, fp, uf⟩ := s
  cases p <;> cases us <;> cases fp <;> cases uf <;>
    cases hsel : inp.selectedFile <;>
    simp_all [invB, runScript, section1, section2, section3, reset_app, initState] <;>
    split_ifs <;> simp_all

lemma calls_validated (s : SessionState) (inp : RunInput) (h : invB s = true) :
    ∀ g ∈ calledFiles (runScript s inp).2, g.size ≤ MAX_FILE_SIZE_MB * 1024 * 1024 := by
  obtain ⟨p, us, fp, uf⟩ := s
  cases p <;> cases us <;> cases fp <;> cases uf <;>
    cases hsel : inp.selectedFile <;>
    simp_all [invB, runScript, section1, section2, section3, reset_app, initState,
      calledFiles] <;>
    split_ifs <;> simp_all [calledFiles]

lemma invB_runTrace (s : SessionState) (inps : List RunInput) (h : invB s = true) :
    invB (runTrace s inps).1 = true := by
  induction inps generalizing s with
  | nil => simpa [runTrace] using h
  | cons inp rest ih =>
    simp only [runTrace]
    exact ih _ (invB_run s inp h)

lemma calls_validated_runTrace (s : SessionState) (inps : List RunInput)
    (h : invB s = true) :
    ∀ g ∈ calledFiles (runTrace s inps).2, g.size ≤ MAX_FILE_SIZE_MB * 1024 * 1024 := by
  induction inps generalizing s with
  | nil => simp [runTrace, calledFiles]
  | cons inp rest ih =>
    intro g hg
    simp only [runTrace, calledFiles_append, List.mem_append] at hg
    rcases hg with hg | hg
    · exact calls_validated s inp h g hg
    · exact ih _ (invB_run s inp h) g hg

lemma runTrace_post_success (s : SessionState)
    (hs : s.upload_success = true) (hp : s.processing = false) :
    ∀ inps : List RunInput, (∀ i ∈ inps, i.resetClicked = false) →
      (runTrace s inps).1 = s ∧ ∀ e ∈ (runTrace s inps).2, e = Event.successShown := by
  intro inps
  induction inps with
  | nil => intro _; simp [runTrace]
  | cons inp rest ih =>
    intro hnr
    have h1 : runScript s inp = (s, [Event.successShown]) :=
      run_post_success s inp hs hp (hnr inp (by simp))
    have h2 := ih (fun i hi => hnr i (by simp [hi]))
    simp only [runTrace, h1]
    refine ⟨h2.1, ?_⟩
    intro e he
    simp only [List.mem_append, List.mem_singleton] at he
    rcases he with he | he
    · exact he
    · exact h2.2 e he

lemma run_oversize (s : SessionState) (inp : RunInput) (f : FileObj)
    (hs : s.upload_success = false) (hp : s.processing = false)
    (hsel : inp.selectedFile = some f)
    (hbig : MAX_FILE_SIZE_MB * 1024 * 1024 < f.size) :
    runScript s inp = (s, [Event.uploaderShown, Event.sizeErrorShown f]) := by
  have h1 : section1 s inp = (s, [Event.uploaderShown, Event.sizeErrorShown f], false) := by
    simp [section1, hs, hp, hsel, hbig]
  simp [runScript, h1, section2_skip_noproc s inp hp, section3_skip s inp hs]

lemma guardAfterCalls_run (s : SessionState) (inp : RunInput) :
    guardAfterCalls (runScript s inp).2 = true := by
  obtain ⟨p, us, fp, uf⟩ := s
  cases p <;> cases us <;> cases fp <;> cases uf <;>
    cases hsel : inp.selectedFile <;>
    simp_all [runScript, section1, section2, section3, guardAfterCalls, isCall] <;>
    split_ifs <;> simp_all [guardAfterCalls, isCall]

lemma setFP_true_has_file (s : SessionState) (inp : RunInput)
    (h : Event.setFileProcessed true ∈ (runScript s inp).2) :
    ∃ f, s.uploaded_file = some f := by
  obtain ⟨p, us, fp, uf⟩ := s
  cases p <;> cases us <;> cases fp <;> cases uf <;>
    cases hsel : inp.selectedFile <;>
    simp_all [runScript, section1, section2, section3] <;>
    split_ifs at h <;> simp_all

lemma handle_raised_success (ex : RequestException) :
    (handle_response (HttpOutcome.raised ex)).success = false := by
  cases ex <;> rfl

lemma calledFiles_nil_of_success (tr : List Event)
    (h : ∀ e ∈ tr, e = Event.successShown) : calledFiles tr = [] := by
  unfold calledFiles
  rw [List.filterMap_eq_nil_iff]
  intro a ha
  rw [h a ha]

lemma callCount_zero (tr : List Event)
    (h : ∀ e ∈ tr, e = Event.successShown) : callCount tr = 0 := by
  unfold callCount
  rw [calledFiles_nil_of_success tr h]
  rfl

lemma invB_flags (s : SessionState) (hinv : invB s = true)
    (hsucc : s.upload_success = true) :
    s.processing = false ∧ s.file_processed = true := by
  unfold invB at hinv
  rw [Bool.and_eq_true] at hinv
  obtain ⟨h1, _⟩ := hinv
  rw [hsucc] at h1
  simpa using h1

lemma invB_file (s : SessionState) (f : FileObj) (hinv : invB s = true)
    (hf : s.uploaded_file = some f) :
    f.size ≤ MAX_FILE_SIZE_MB * 1024 * 1024 := by
  unfold invB at hinv
  rw [Bool.and_eq_true] at hinv
  obtain ⟨_, h2⟩ := hinv
  rw [hf] at h2
  simpa using h2

/-- Claim C1, counterexample: a generic exception whose string representation
is empty yields the failure state with an EMPTY error message, contradicting
the claim that any raised exception yields a non-empty error message. -/
theorem claim_C1_counterexample :
    (handle_response (HttpOutcome.raised (RequestException.other ""))).success = false ∧
    (handle_response (HttpOutcome.raised (RequestException.other ""))).error = some "" ∧
    ¬ ∃ s, (handle_response (HttpOutcome.raised (RequestException.other ""))).error
        = some s ∧ s ≠ "" := by
  refine ⟨rfl, rfl, ?_⟩
  rintro ⟨s, hs, hne⟩
  simp only [handle_response, Option.some.injEq] at hs
  exact hne hs.symm

/-- Claim C1 (amended): an HTTP 200 response always yields the success state
regardless of the response body; any other status code, a timeout, or a
connection error yields the failure state with a non-empty error message; a
generic exception yields the failure state with the message of the exception
surfaced verbatim, which may be empty. -/
theorem claim_C1 (status_code : Nat) (text m : String) (hc : status_code ≠ 200) :
    ((handle_response (HttpOutcome.response 200 text)).success = true ∧
      (handle_response (HttpOutcome.response 200 text)).error = none) ∧
    ((handle_response (HttpOutcome.response status_code text)).success = false ∧
      ∃ s, (handle_response (HttpOutcome.response status_code text)).error = some s ∧
        s ≠ "") ∧
    ((handle_response (HttpOutcome.raised RequestException.timeout)).success = false ∧
      ∃ s, (handle_response (HttpOutcome.raised RequestException.timeout)).error
          = some s ∧ s ≠ "") ∧
    ((handle_response (HttpOutcome.raised RequestException.connectionError)).success
        = false ∧
      ∃ s, (handle_response (HttpOutcome.raised RequestException.connectionError)).error
          = some s ∧ s ≠ "") ∧
    ((handle_response (HttpOutcome.raised (RequestException.other m))).success = false ∧
      (handle_response (HttpOutcome.raised (RequestException.other m))).error = some m) := by
  refine ⟨⟨rfl, rfl⟩, ⟨?_, ?_⟩, ⟨rfl, ?_⟩, ⟨rfl, ?_⟩, rfl, rfl⟩
  · simp [handle_response, hc]
  · refine ⟨"Server returned " ++ toString status_code ++ ": " ++ text, ?_,
      server_msg_ne status_code text⟩
    simp [handle_response, hc]
  · exact ⟨_, rfl, by decide⟩
  · exact ⟨_, rfl, by decide⟩

/-- Claim C1, witness: at status code 404 the hypotheses of the amended claim
hold and the failure state carries a non-empty message. -/
theorem claim_C1_witness :
    (404 ≠ 200) ∧
    ((handle_response (HttpOutcome.response 404 "x")).success = false ∧
      ∃ s, (handle_response (HttpOutcome.response 404 "x")).error = some s ∧ s ≠ "") :=
  ⟨by decide, (claim_C1 404 "x" "m" (by decide)).2.1⟩

/-- Claim C6: in every session state, `reset_app` sets `processing`,
`upload_success` and `file_processed` back to `False` and removes the stored
`uploaded_file`, returning exactly the initial state. -/
theorem claim_C6 (s : SessionState) :
    (reset_app s).processing = false ∧
    (reset_app s).upload_success = false ∧
    (reset_app s).file_processed = false ∧
    (reset_app s).uploaded_file = none ∧
    reset_app s = initState :=
  ⟨rfl, rfl, rfl, rfl, reset_app_eq s⟩

/-- Claim C8: the transport call sends the bytes of the file as multipart form
data under field name `file` with MIME type `application/pdf`, via HTTP POST
to the configured webhook URL, with a fixed timeout of 240 seconds. -/
theorem claim_C8 (secrets : String → Option String)
    (transport : PostRequest → HttpOutcome) (file_obj : FileObj) :
    (process_document_request secrets file_obj).method = "POST" ∧
    (process_document_request secrets file_obj).url = WEBHOOK_URL secrets ∧
    (process_document_request secrets file_obj).fieldName = "file" ∧
    (process_document_request secrets file_obj).mime = "application/pdf" ∧
    (process_document_request secrets file_obj).fileName = file_obj.name ∧
    (process_document_request secrets file_obj).fileBytes = file_obj.content ∧
    (process_document_request secrets file_obj).timeoutSeconds = 240 ∧
    process_document secrets transport file_obj
      = handle_response (transport (process_document_request secrets file_obj)) :=
  ⟨rfl, rfl, rfl, rfl, rfl, rfl, rfl, rfl⟩

/-- Claim C10: `process_document` is total over every transport outcome and
always returns a result with a boolean success flag, carrying an error
message exactly when the success flag is false. -/
theorem claim_C10 (secrets : String → Option String)
    (transport : PostRequest → HttpOutcome) (file_obj : FileObj) :
    ((process_document secrets transport file_obj).success = true ∧
      (process_document secrets transport file_obj).error = none) ∨
    ((process_document secrets transport file_obj).success = false ∧
      ∃ msg, (process_document secrets transport file_obj).error = some msg) := by
  unfold process_document
  cases h : transport (process_document_request secrets file_obj) with
  | response status_code text =>
    by_cases hc : status_code = 200
    · subst hc
      exact Or.inl ⟨rfl, rfl⟩
    · refine Or.inr ⟨?_, "Server returned " ++ toString status_code ++ ": " ++ text, ?_⟩ <;>
        simp [handle_response, hc]
  | raised ex => cases ex <;> exact Or.inr ⟨rfl, _, rfl⟩

/-- Claim C2: when the upload form is shown and the selected file exceeds the
configured 10 MB limit, the handler displays the rejection message, leaves
the state unchanged, makes no outbound call on that run, and (since only
validated files are ever stored for processing) no outbound call is ever made
for that file on any sequence of reruns. -/
theorem claim_C2 (s : SessionState) (inp : RunInput) (f : FileObj)
    (hinv : invB s = true)
    (hsucc : s.upload_success = false) (hproc : s.processing = false)
    (hsel : inp.selectedFile = some f)
    (hbig : MAX_FILE_SIZE_MB * 1024 * 1024 < f.size) :
    Event.sizeErrorShown f ∈ (runScript s inp).2 ∧
    (runScript s inp).1 = s ∧
    calledFiles (runScript s inp).2 = [] ∧
    ∀ inps : List RunInput, f ∉ calledFiles (runTrace s inps).2 := by
  have hrun := run_oversize s inp f hsucc hproc hsel hbig
  refine ⟨?_, ?_, ?_, ?_⟩
  · rw [hrun]; simp
  · rw [hrun]
  · rw [hrun]; rfl
  · intro inps hf
    have hle := calls_validated_runTrace s inps hinv f hf
    omega

/-- Claim C2, witness: from the initial state, selecting a file one byte over
the 10 MB limit draws the rejection message and that file is never called. -/
theorem claim_C2_witness :
    invB initState = true ∧ initState.upload_success = false ∧
    initState.processing = false ∧
    (RunInput.mk (some (FileObj.mk "big.pdf" 10485761 []))
        false false (fun _ => none)
        (fun _ => HttpOutcome.response 200 "")).selectedFile
      = some (FileObj.mk "big.pdf" 10485761 []) ∧
    MAX_FILE_SIZE_MB * 1024 * 1024 < (FileObj.mk "big.pdf" 10485761 []).size ∧
    (Event.sizeErrorShown (FileObj.mk "big.pdf" 10485761 []) ∈
      (runScript initState
        (RunInput.mk (some (FileObj.mk "big.pdf" 10485761 []))
          false false (fun _ => none)
          (fun _ => HttpOutcome.response 200 ""))).2 ∧
     (runScript initState
        (RunInput.mk (some (FileObj.mk "big.pdf" 10485761 []))
          false false (fun _ => none)
          (fun _ => HttpOutcome.response 200 ""))).1 = initState ∧
     calledFiles (runScript initState
        (RunInput.mk (some (FileObj.mk "big.pdf" 10485761 []))
          false false (fun _ => none)
          (fun _ => HttpOutcome.response 200 ""))).2 = [] ∧
     ∀ inps : List RunInput,
       FileObj.mk "big.pdf" 10485761 [] ∉ calledFiles (runTrace initState inps).2) :=
  ⟨by decide, rfl, rfl, rfl, by decide,
    claim_C2 initState
      (RunInput.mk (some (FileObj.mk "big.pdf" 10485761 []))
        false false (fun _ => none)
        (fun _ => HttpOutcome.response 200 ""))
      (FileObj.mk "big.pdf" 10485761 [])
      (by decide) rfl rfl rfl (by decide)⟩

/-- Claim C3, counterexample: on the run that performs the outbound call, the
guard flag is NOT set immediately before the call begins; the trace of the
processing run contains its single call event with no preceding write of
`true` to `file_processed` (the code sets the guard right after the call
returns instead). -/
theorem claim_C3_counterexample :
    callCount (runScript
      (SessionState.mk true false false (some (FileObj.mk "a.pdf" 5 [])))
      (RunInput.mk none false false (fun _ => none)
        (fun _ => HttpOutcome.response 200 ""))).2 = 1 ∧
    guardBeforeCalls (runScript
      (SessionState.mk true false false (some (FileObj.mk "a.pdf" 5 [])))
      (RunInput.mk none false false (fun _ => none)
        (fun _ => HttpOutcome.response 200 ""))).2 = false := by
  decide

/-- Claim C3 (amended): in every run from a reachable state, each outbound
call is immediately followed by a write of `true` to the guard flag
`file_processed` (the guard is set immediately after the call returns, not
before it begins), and the guard is only ever set to `true` when a stored
file that passed the size validation is present. -/
theorem claim_C3 (s : SessionState) (inp : RunInput) (hinv : invB s = true) :
    guardAfterCalls (runScript s inp).2 = true ∧
    (Event.setFileProcessed true ∈ (runScript s inp).2 →
      ∃ f, s.uploaded_file = some f ∧ f.size ≤ MAX_FILE_SIZE_MB * 1024 * 1024) := by
  refine ⟨guardAfterCalls_run s inp, ?_⟩
  intro hmem
  obtain ⟨f, hf⟩ := setFP_true_has_file s inp hmem
  exact ⟨f, hf, invB_file s f hinv hf⟩

/-- Claim C3, witness: a concrete processing run satisfies the invariant and
its call is immediately followed by the guard write. -/
theorem claim_C3_witness :
    invB (SessionState.mk true false false (some (FileObj.mk "b.pdf" 7 []))) = true ∧
    (guardAfterCalls (runScript
        (SessionState.mk true false false (some (FileObj.mk "b.pdf" 7 [])))
        (RunInput.mk none false false (fun _ => none)
          (fun _ => HttpOutcome.response 200 "ok"))).2 = true ∧
     (Event.setFileProcessed true ∈ (runScript
        (SessionState.mk true false false (some (FileObj.mk "b.pdf" 7 [])))
        (RunInput.mk none false false (fun _ => none)
          (fun _ => HttpOutcome.response 200 "ok"))).2 →
       ∃ f, (SessionState.mk true false false
              (some (FileObj.mk "b.pdf" 7 []))).uploaded_file = some f ∧
            f.size ≤ MAX_FILE_SIZE_MB * 1024 * 1024)) :=
  ⟨by decide,
    claim_C3 (SessionState.mk true false false (some (FileObj.mk "b.pdf" 7 [])))
      (RunInput.mk none false false (fun _ => none)
        (fun _ => HttpOutcome.response 200 "ok"))
      (by decide)⟩

/-- Claim C4: from a state where the guard condition has triggered
(`processing` set, `uploaded_file` present, `file_processed` clear), the run
issues exactly one outbound call; and if that call succeeds, no subsequent
rerun issues another call as long as the reset button is not clicked. -/
theorem claim_C4 (s : SessionState) (inp : RunInput) (f : FileObj)
    (hproc : s.processing = true) (hfile : s.uploaded_file = some f)
    (hfp : s.file_processed = false) (hsucc : s.upload_success = false) :
    callCount (runScript s inp).2 = 1 ∧
    ((process_document inp.secrets inp.transport f).success = true →
      ∀ inps : List RunInput, (∀ i ∈ inps, i.resetClicked = false) →
        callCount (runTrace (runScript s inp).1 inps).2 = 0) := by
  constructor
  · cases hres : (process_document inp.secrets inp.transport f).success
    · rw [run_processing_failure s inp f hproc hfile hfp hsucc hres]
      rfl
    · rw [run_processing_success s inp f hproc hfile hfp hres]
      rfl
  · intro hres inps hnr
    rw [run_processing_success s inp f hproc hfile hfp hres]
    exact callCount_zero _
      ((runTrace_post_success
        (SessionState.mk false true true (some f)) rfl rfl inps hnr).2)

/-- Claim C4, witness: a concrete triggered state makes exactly one call, and
after its success a further rerun without reset makes none. -/
theorem claim_C4_witness :
    (SessionState.mk true false false (some (FileObj.mk "c.pdf" 9 [1]))).processing
      = true ∧
    (callCount (runScript
        (SessionState.mk true false false (some (FileObj.mk "c.pdf" 9 [1])))
        (RunInput.mk none false false (fun _ => none)
          (fun _ => HttpOutcome.response 200 "ok"))).2 = 1 ∧
     callCount (runTrace (runScript
        (SessionState.mk true false false (some (FileObj.mk "c.pdf" 9 [1])))
        (RunInput.mk none false false (fun _ => none)
          (fun _ => HttpOutcome.response 200 "ok"))).1
        [RunInput.mk none true false (fun _ => none)
          (fun _ => HttpOutcome.response 200 "ok")]).2 = 0) := by
  refine ⟨rfl, ?_, ?_⟩
  · exact (claim_C4 (SessionState.mk true false false (some (FileObj.mk "c.pdf" 9 [1])))
      (RunInput.mk none false false (fun _ => none)
        (fun _ => HttpOutcome.response 200 "ok"))
      (FileObj.mk "c.pdf" 9 [1]) rfl rfl rfl rfl).1
  · exact (claim_C4 (SessionState.mk true false false (some (FileObj.mk "c.pdf" 9 [1])))
      (RunInput.mk none false false (fun _ => none)
        (fun _ => HttpOutcome.response 200 "ok"))
      (FileObj.mk "c.pdf" 9 [1]) rfl rfl rfl rfl).2 (by decide)
      [RunInput.mk none true false (fun _ => none)
        (fun _ => HttpOutcome.response 200 "ok")]
      (by simp)

/-- Claim C5: after a failed call of `process_document`, the run leaves the
state with `file_processed = False` and `processing = False`, the success
flag still clear and the same file still stored, so it can be resubmitted. -/
theorem claim_C5 (s : SessionState) (inp : RunInput) (f : FileObj)
    (hproc : s.processing = true) (hfile : s.uploaded_file = some f)
    (hfp : s.file_processed = false) (hsucc : s.upload_success = false)
    (hfail : (process_document inp.secrets inp.transport f).success = false) :
    (runScript s inp).1.file_processed = false ∧
    (runScript s inp).1.processing = false ∧
    (runScript s inp).1.upload_success = false ∧
    (runScript s inp).1.uploaded_file = some f := by
  rw [run_processing_failure s inp f hproc hfile hfp hsucc hfail]
  exact ⟨rfl, rfl, rfl, rfl⟩

/-- Claim C5, witness: a concrete processing run whose transport returns
status 500 leaves both flags clear and the file stored. -/
theorem claim_C5_witness :
    (process_document (fun _ => none)
      (fun _ => HttpOutcome.response 500 "bad") (FileObj.mk "d.pdf" 3 [])).success
      = false ∧
    ((runScript (SessionState.mk true false false (some (FileObj.mk "d.pdf" 3 [])))
        (RunInput.mk none false false (fun _ => none)
          (fun _ => HttpOutcome.response 500 "bad"))).1.file_processed = false ∧
     (runScript (SessionState.mk true false false (some (FileObj.mk "d.pdf" 3 [])))
        (RunInput.mk none false false (fun _ => none)
          (fun _ => HttpOutcome.response 500 "bad"))).1.processing = false ∧
     (runScript (SessionState.mk true false false (some (FileObj.mk "d.pdf" 3 [])))
        (RunInput.mk none false false (fun _ => none)
          (fun _ => HttpOutcome.response 500 "bad"))).1.upload_success = false ∧
     (runScript (SessionState.mk true false false (some (FileObj.mk "d.pdf" 3 [])))
        (RunInput.mk none false false (fun _ => none)
          (fun _ => HttpOutcome.response 500 "bad"))).1.uploaded_file
       = some (FileObj.mk "d.pdf" 3 [])) :=
  ⟨by decide,
    claim_C5 (SessionState.mk true false false (some (FileObj.mk "d.pdf" 3 [])))
      (RunInput.mk none false false (fun _ => none)
        (fun _ => HttpOutcome.response 500 "bad"))
      (FileObj.mk "d.pdf" 3 []) rfl rfl rfl rfl (by decide)⟩

/-- Claim C7: once `upload_success` is set (in a reachable state), the upload
widget and the process button are not rendered and no outbound call occurs on
any sequence of reruns without a reset click, the state staying unchanged;
a reset click returns the state to the initial Idle state, again without an
outbound call on that run. -/
theorem claim_C7 (s : SessionState) (hinv : invB s = true)
    (hsucc : s.upload_success = true) :
    (∀ inps : List RunInput, (∀ i ∈ inps, i.resetClicked = false) →
      (runTrace s inps).1 = s ∧
      Event.uploaderShown ∉ (runTrace s inps).2 ∧
      (∀ b : Bool, Event.buttonShown b ∉ (runTrace s inps).2) ∧
      calledFiles (runTrace s inps).2 = []) ∧
    (∀ inp : RunInput, inp.resetClicked = true →
      (runScript s inp).1 = initState ∧ calledFiles (runScript s inp).2 = []) := by
  have hp : s.processing = false := (invB_flags s hinv hsucc).1
  constructor
  · intro inps hnr
    have h := runTrace_post_success s hsucc hp inps hnr
    refine ⟨h.1, ?_, ?_, calledFiles_nil_of_success _ h.2⟩
    · intro hmem
      exact absurd (h.2 _ hmem) (by decide)
    · intro b hmem
      exact absurd (h.2 _ hmem) (by simp)
  · intro inp hr
    rw [run_post_success_reset s inp hsucc hp hr]
    exact ⟨rfl, rfl⟩

/-- Claim C7, witness: a concrete reachable success state stays terminal
under a rerun without reset and returns to Idle on a reset click. -/
theorem claim_C7_witness :
    invB (SessionState.mk false true true none) = true ∧
    (SessionState.mk false true true none).upload_success = true ∧
    ((runTrace (SessionState.mk false true true none)
        [RunInput.mk none true false (fun _ => none)
          (fun _ => HttpOutcome.response 200 "")]).1
      = SessionState.mk false true true none ∧
     (runScript (SessionState.mk false true true none)
        (RunInput.mk none false true (fun _ => none)
          (fun _ => HttpOutcome.response 200 ""))).1 = initState) := by
  refine ⟨by decide, rfl, ?_, ?_⟩
  · exact ((claim_C7 (SessionState.mk false true true none) (by decide) rfl).1
      [RunInput.mk none true false (fun _ => none)
        (fun _ => HttpOutcome.response 200 "")] (by simp)).1
  · exact ((claim_C7 (SessionState.mk false true true none) (by decide) rfl).2
      (RunInput.mk none false true (fun _ => none)
        (fun _ => HttpOutcome.response 200 "")) rfl).1

/-- Claim C9: the failure kinds raised by the transport are exactly three
(timeout, connection error, generic exception); each yields the failure
state whose plain-text message — the fixed timeout text, the fixed
connection-error text, or the generic message of the exception itself — is surfaced
verbatim to the user by the error display of the processing run, with no
structured error code. -/
theorem claim_C9 (ex : RequestException) (s : SessionState) (inp : RunInput)
    (f : FileObj)
    (hproc : s.processing = true) (hfile : s.uploaded_file = some f)
    (hfp : s.file_processed = false) (hsucc : s.upload_success = false)
    (hraise : inp.transport (process_document_request inp.secrets f)
      = HttpOutcome.raised ex) :
    (ex = RequestException.timeout ∨ ex = RequestException.connectionError ∨
      ∃ m, ex = RequestException.other m) ∧
    ∃ msg,
      (handle_response (HttpOutcome.raised ex)).success = false ∧
      (handle_response (HttpOutcome.raised ex)).error = some msg ∧
      Event.errorShown msg ∈ (runScript s inp).2 ∧
      msg = (match ex with
             | RequestException.timeout =>
                "The request timed out. The file might be processing in the background."
             | RequestException.connectionError =>
                "Connection error. Check your internet/server."
             | RequestException.other m => m) := by
  have hpd : process_document inp.secrets inp.transport f
      = handle_response (HttpOutcome.raised ex) := by
    unfold process_document
    rw [hraise]
  have hres : (process_document inp.secrets inp.transport f).success = false := by
    rw [hpd]
    exact handle_raised_success ex
  have hrun := run_processing_failure s inp f hproc hfile hfp hsucc hres
  constructor
  · cases ex
    · exact Or.inl rfl
    · exact Or.inr (Or.inl rfl)
    · exact Or.inr (Or.inr ⟨_, rfl⟩)
  · cases ex with
    | timeout =>
      refine ⟨_, rfl, rfl, ?_, rfl⟩
      rw [hrun, hpd]
      simp [handle_response]
    | connectionError =>
      refine ⟨_, rfl, rfl, ?_, rfl⟩
      rw [hrun, hpd]
      simp [handle_response]
    | other m =>
      refine ⟨m, rfl, rfl, ?_, rfl⟩
      rw [hrun, hpd]
      simp [handle_response]

/-- Claim C9, witness: a concrete processing run whose transport raises the
timeout exception surfaces the fixed timeout message verbatim. -/
theorem claim_C9_witness :
    (RunInput.mk none false false (fun _ => none)
        (fun _ => HttpOutcome.raised RequestException.timeout)).transport
      (process_document_request
        (RunInput.mk none false false (fun _ => none)
          (fun _ => HttpOutcome.raised RequestException.timeout)).secrets
        (FileObj.mk "e.pdf" 4 []))
      = HttpOutcome.raised RequestException.timeout ∧
    ∃ msg,
      (handle_response (HttpOutcome.raised RequestException.timeout)).success = false ∧
      (handle_response (HttpOutcome.raised RequestException.timeout)).error = some msg ∧
      Event.errorShown msg ∈ (runScript
        (SessionState.mk true false false (some (FileObj.mk "e.pdf" 4 [])))
        (RunInput.mk none false false (fun _ => none)
          (fun _ => HttpOutcome.raised RequestException.timeout))).2 ∧
      msg = "The request timed out. The file might be processing in the background." :=
  ⟨rfl,
    (claim_C9 RequestException.timeout
      (SessionState.mk true false false (some (FileObj.mk "e.pdf" 4 [])))
      (RunInput.mk none false false (fun _ => none)
        (fun _ => HttpOutcome.raised RequestException.timeout))
      (FileObj.mk "e.pdf" 4 []) rfl rfl rfl rfl rfl).2⟩

end HandwrittenInk
